import Mathlib

/-!
Shallow embedding of the recovery-monitoring core of
`divi_wallet_importer` (files `api.py` and `rpc.py`), together with
theorems settling the specification claims about it.

Conventions:
* Python strings are modelled as Lean `String`; the helpers below mirror
  the exact Python operations used by the source (`in`, `split`, `strip`).
* Python `time.time()` values are threaded as an explicit `now : Int`.
* The outcome of one `getinfo()` RPC call is a `PollResult`
  (success payload / `RPCError` / `RPCConnectionError`).
* Python float arithmetic (`int(blocks / max(headers, 1) * 100)` in
  `_monitor_recovery`) is modelled exactly as IEEE-754 binary64
  round-to-nearest-even arithmetic on dyadic rationals (valid on the
  normal range, which covers every payload with `headers < 2^1000`).
-/

namespace DiviImporter

/-! ### Python string primitives -/

/-- `charsPrefixOf needle l` : does `l` start with `needle`? -/
def charsPrefixOf : List Char → List Char → Bool
  | [], _ => true
  | _ :: _, [] => false
  | a :: as, b :: bs => a = b && charsPrefixOf as bs

/-- Substring containment on character lists (Python `needle in hay`). -/
def hasSubList (needle : List Char) : List Char → Bool
  | [] => needle.isEmpty
  | c :: rest => charsPrefixOf needle (c :: rest) || hasSubList needle rest

/-- Python `needle in hay` on strings. -/
def strContains (hay needle : String) : Bool :=
  hasSubList needle.data hay.data

/-- Python `s.split(sep)` for a one-character separator `sep`. -/
def splitChar (sep : Char) : List Char → List (List Char)
  | [] => [[]]
  | c :: rest =>
    if c = sep then [] :: splitChar sep rest
    else
      match splitChar sep rest with
      | [] => [[c]]
      | p :: ps => (c :: p) :: ps

/-- Characters removed by Python `str.strip()` (whitespace). -/
def isPySpace (c : Char) : Bool :=
  c = ' ' || c = '\t' || c = '\n' || c = '\r' ||
  c = Char.ofNat 11 || c = Char.ofNat 12

/-- Python `s.strip()`. -/
def stripChars (l : List Char) : List Char :=
  ((l.dropWhile isPySpace).reverse.dropWhile isPySpace).reverse

/-! ### IEEE-754 binary64 model of the progress-percent computation

`_monitor_recovery` computes `"{}%".format(int(blocks / max(headers, 1) * 100))`
with Python floats.  We model the two correctly rounded operations
(true division, then multiplication by 100) on exact dyadic values
`m * 2^e` with `2^52 ≤ m < 2^53`, and the final truncation toward zero. -/

/-- Scale `a` up by powers of two until `a ≥ 2^52 * b` (fuel-bounded). -/
def fdivUp (fuel : Nat) (a b : Nat) (e : Int) : Nat × Nat × Int :=
  match fuel with
  | 0 => (a, b, e)
  | fuel + 1 =>
    if a < 2 ^ 52 * b then fdivUp fuel (2 * a) b (e - 1) else (a, b, e)

/-- Scale `b` up by powers of two until `a < 2^53 * b` (fuel-bounded). -/
def fdivDown (fuel : Nat) (a b : Nat) (e : Int) : Nat × Nat × Int :=
  match fuel with
  | 0 => (a, b, e)
  | fuel + 1 =>
    if a ≥ 2 ^ 53 * b then fdivDown fuel a (2 * b) (e + 1) else (a, b, e)

/-- Round `(m0 * b + r) / b` to the nearest integer, ties to even. -/
def roundMantissa (m0 r b : Nat) : Nat :=
  if 2 * r < b then m0
  else if 2 * r > b then m0 + 1
  else if m0 % 2 = 0 then m0 else m0 + 1

/-- Correctly rounded binary64 division `p / q` for `p, q > 0`:
returns `(m, e)` with value `m * 2^e` and `2^52 ≤ m < 2^53`. -/
def fdiv64 (p q : Nat) : Nat × Int :=
  let fuel := p + q + 4000
  let (a, b, e) := fdivUp fuel p q 0
  let (a, b, e) := fdivDown fuel a b e
  let m := roundMantissa (a / b) (a % b) b
  if m = 2 ^ 53 then (2 ^ 52, e + 1) else (m, e)

/-- Number of low bits that must be dropped to bring `M` under `2^53`. -/
def dropBits (fuel M : Nat) : Nat :=
  match fuel with
  | 0 => 0
  | fuel + 1 => if M ≥ 2 ^ 53 then dropBits fuel (M / 2) + 1 else 0

/-- Correctly rounded binary64 multiplication of `m * 2^e` by `100`. -/
def mul100_64 (m : Nat) (e : Int) : Nat × Int :=
  let M := m * 100
  let t := dropBits 64 M
  if t = 0 then (M, e)
  else
    let m0 := M / 2 ^ t
    let r := M % 2 ^ t
    let half := 2 ^ (t - 1)
    let mm :=
      if r < half then m0
      else if r > half then m0 + 1
      else if m0 % 2 = 0 then m0 else m0 + 1
    if mm = 2 ^ 53 then (2 ^ 52, e + (t : Int) + 1) else (mm, e + (t : Int))

/-- Truncation toward zero of the nonnegative value `m * 2^e` (Python `int(x)`). -/
def truncFloat (m : Nat) (e : Int) : Nat :=
  if 0 ≤ e then m * 2 ^ e.toNat else m / 2 ^ (-e).toNat

/-- Python `int(b / max(h, 1) * 100)` for nonnegative integers. -/
def pyIntPctNat (b h : Nat) : Nat :=
  if b = 0 then 0
  else
    let d := fdiv64 b (max h 1)
    let p := mul100_64 d.1 d.2
    truncFloat p.1 p.2

/-- Python `int(b / max(h, 1) * 100)` on integers (truncation toward zero
and binary64 rounding are both symmetric under negation). -/
def pyIntPct (b h : Int) : Int :=
  if 0 ≤ b then (pyIntPctNat b.toNat h.toNat : Int)
  else -(pyIntPctNat (-b).toNat h.toNat : Int)

/-! ### Phase classification (`api.py`)

`classifyAppError` is the message branch of `_monitor_recovery`
(api.py lines 534-556); `resumeClassifyPhase` is the `RPCError` branch of
`check_recovery_in_progress` (api.py lines 312-332). -/

/-- The percent-extraction of the `"Loading wallet"` branch:
`message.split("(")[1].split("%")[0].strip() + "%"`, with the
`IndexError` of `[1]` caught and mapped to `""`. -/
def extractWalletPercent (message : String) : String :=
  match splitChar '(' message.data with
  | _ :: second :: _ =>
    String.mk (stripChars ((splitChar '%' second).headD [])) ++ "%"
  | _ => ""

/-- The `(message, progress, phase)` triple written by one `RPCError`
iteration of `_monitor_recovery`. -/
structure StatusUpdate where
  message : String
  progress : String
  phase : String
deriving DecidableEq

/-- The ordered substring matcher of `_monitor_recovery`'s `RPCError`
branch (api.py lines 538-556). -/
def classifyAppError (message : String) : StatusUpdate :=
  if strContains message "Loading block index" then
    ⟨"Loading blockchain index...", "", "loading_blocks"⟩
  else if strContains message "Loading wallet" then
    let percent := extractWalletPercent message
    ⟨"Recreating wallet from seed phrase... " ++ percent, percent, "recovering_wallet"⟩
  else if strContains message "Rescanning" || strContains message "Scanning" then
    ⟨"Scanning blockchain for your transactions...", "", "scanning"⟩
  else if strContains message "Verifying" then
    ⟨"Verifying blockchain data...", "", "verifying"⟩
  else if strContains message "Activating best chain" then
    ⟨"Activating best chain...", "", "loading_blocks"⟩
  else ⟨message, "", ""⟩

/-- The phase computed by the `RPCError` branch of
`check_recovery_in_progress` (api.py lines 313-325); `savedPhase` is
`saved.get("phase", "")`. -/
def resumeClassifyPhase (message savedPhase : String) : String :=
  if strContains message "Loading block index" then "loading_blocks"
  else if strContains message "Loading wallet" then "recovering_wallet"
  else if strContains message "Rescanning" || strContains message "Scanning" then "scanning"
  else if strContains message "Verifying" then "verifying"
  else savedPhase

/-! ### Data model (`api.py` module-level state)

The in-memory status dict `_recovery_status`, the start-time
`_recovery_start_time`, the persisted state file written by
`_save_state` / deleted by `_clear_state`, and the `_auto_launched`
flag are bundled into one `ApiState`.  `desktopLaunchAttempts` is ghost
instrumentation counting entries into `_auto_launch_desktop` (the
side-effect channel); no source branch reads it. -/

structure RecoveryStatus where
  state : String
  phase : String
  message : String
  progress : String
deriving DecidableEq

/-- The JSON object written by `_save_state`: `start_time` is
`_recovery_start_time` (possibly `None`), `timestamp` is `time.time()`. -/
structure PersistedState where
  start_time : Option Int
  phase : String
  timestamp : Int
deriving DecidableEq

structure ApiState where
  status : RecoveryStatus
  startTime : Option Int
  persisted : Option PersistedState
  autoLaunched : Bool
  desktopLaunchAttempts : Nat
deriving DecidableEq

/-- `_set_status(state, message, progress, phase)` followed by the
write-through `_save_state(phase)` when `phase` is non-empty
(api.py lines 81-91; persistence failures are silently ignored in the
source, so the write is modelled as succeeding). -/
def setStatus (s : ApiState) (state msg progress phase : String) (now : Int) : ApiState :=
  let s' : ApiState := { s with status := ⟨state, phase, msg, progress⟩ }
  if phase ≠ "" then
    { s' with persisted := some ⟨s.startTime, phase, now⟩ }
  else s'

/-- `_auto_launch_desktop()` (api.py lines 137-150).  `launchOk` is the
outcome of `get_divi_desktop_executable()` + `launch_application(...)`:
`false` models any exception from either call, which the source catches,
leaving status and persisted state untouched. -/
def autoLaunchDesktop (launchOk : Bool) (s : ApiState) (now : Int) : ApiState :=
  let s' : ApiState :=
    { s with autoLaunched := true,
             desktopLaunchAttempts := s.desktopLaunchAttempts + 1 }
  if launchOk then
    let s'' := setStatus s' "launched"
      "Divi Desktop launched. It will finish syncing your wallet automatically."
      "" "launched" now
    { s'' with persisted := none }
  else s'

/-! ### One `getinfo()` outcome and one monitor-loop iteration -/

/-- Outcome of one `rpc.getinfo()` call: success payload (the `blocks`
and `headers` fields, `info.get(..., 0)` applied), an `RPCError`
message, or an `RPCConnectionError`. -/
inductive PollResult where
  | success (blocks headers : Int)
  | appError (message : String)
  | connError
deriving DecidableEq

/-- One loop iteration's environment: the poll outcome plus whether a
desktop-launch attempt (if any) would succeed. -/
structure PollInput where
  poll : PollResult
  launchOk : Bool
deriving DecidableEq

/-- Result of one iteration of the `while True` loop of
`_monitor_recovery`: updated module state, updated
`consecutive_failures`, and whether the iteration executed `return`. -/
structure StepOut where
  api : ApiState
  failures : Nat
  stopped : Bool
deriving DecidableEq

/-- One iteration of the `while True` loop of `_monitor_recovery`
(api.py lines 513-567), with `failures` the value of
`consecutive_failures` on entry (`max_failures = 6`). -/
def monitorStepCore (poll : PollResult) (launchOk : Bool) (now : Int) (s : ApiState)
    (failures : Nat) : StepOut :=
  match poll with
  | .success blocks headers =>
    if headers > 0 ∧ blocks ≥ headers then
      let s' := setStatus s "complete"
        "Recovery complete. Ready to launch Divi Desktop." "100%" "complete" now
      ⟨{ s' with persisted := none }, 0, true⟩
    else if headers > 0 then
      let pct := toString (pyIntPct blocks headers) ++ "%"
      ⟨setStatus s "running"
        ("Block " ++ toString blocks ++ "/" ++ toString headers) pct "syncing" now,
       0, false⟩
    else
      ⟨setStatus s "running" "Waiting for block headers..." "" "syncing" now, 0, false⟩
  | .appError message =>
    let u := classifyAppError message
    let s' := setStatus s "running" u.message u.progress u.phase now
    if u.phase = "scanning" ∧ s'.autoLaunched = false then
      ⟨autoLaunchDesktop launchOk s' now, 0, false⟩
    else ⟨s', 0, false⟩
  | .connError =>
    if failures + 1 ≥ 6 then
      ⟨setStatus s "error" "Daemon stopped responding." "" "error" now, failures + 1, true⟩
    else
      ⟨setStatus s "running" "Waiting for daemon response..." "" "starting" now,
       failures + 1, false⟩

/-- One loop iteration, taking the bundled per-iteration environment. -/
def monitorStep (inp : PollInput) (now : Int) (s : ApiState) (failures : Nat) : StepOut :=
  monitorStepCore inp.poll inp.launchOk now s failures

/-- Loop state: module state, `consecutive_failures`, and whether the
loop has returned. -/
structure LoopState where
  api : ApiState
  failures : Nat
  stopped : Bool
deriving DecidableEq

/-- The polling loop of `_monitor_recovery`, driven by a finite list of
poll outcomes; once an iteration returns, later outcomes are never
polled. -/
def runMonitor (now : Int) : List PollInput → LoopState → LoopState
  | [], ls => ls
  | inp :: rest, ls =>
    if ls.stopped then ls
    else
      let o := monitorStep inp now ls.api ls.failures
      runMonitor now rest ⟨o.api, o.failures, o.stopped⟩

/-- Spec-side recursive reading of the claim "`error` is reached exactly
when 6 consecutive `ConnectionFailure`s occur, with any success or
`ApplicationFailure` resetting the counter" — starting from counter `k`,
and accounting for the loop exiting on a fully-synced success. -/
def errorBySix (k : Nat) : List PollInput → Bool
  | [] => false
  | ⟨.connError, _⟩ :: rest => if k + 1 ≥ 6 then true else errorBySix (k + 1) rest
  | ⟨.success b h, _⟩ :: rest => if h > 0 ∧ b ≥ h then false else errorBySix 0 rest
  | ⟨.appError _, _⟩ :: rest => errorBySix 0 rest

/-! ### The remaining operations the claims mention -/

/-- `clear_recovery()` (api.py lines 365-372): deletes the persisted
record, resets the status dict to idle and the start time to `None`
(the `_auto_launched` flag is not touched). -/
def clear_recovery (s : ApiState) : ApiState × Bool × String :=
  ({ s with persisted := none,
            status := ⟨"idle", "", "", ""⟩,
            startTime := none },
   true, "Recovery state cleared.")

/-- Outcome of one `getinfo()` probe as seen by `is_responsive` and
`check_recovery_in_progress`: normal result, `RPCError`, or
`RPCConnectionError` (a failing `DiviRPC.from_conf()` raises
`RPCConnectionError` and is folded into `connError`). -/
inductive RpcOutcome where
  | ok
  | rpcError (code : Int) (message : String)
  | connError
deriving DecidableEq

/-- `DiviRPC.is_responsive` (rpc.py lines 121-127): returns `True` only
when `getinfo()` raises neither exception — the `except` clause catches
`RPCError` and `RPCConnectionError` alike. -/
def is_responsive (o : RpcOutcome) : Bool :=
  match o with
  | .ok => true
  | .rpcError _ _ => false
  | .connError => false

/-- Result dict of `check_recovery_in_progress`. -/
structure CheckResult where
  in_progress : Bool
  phase : String
  elapsed : Int
  message : String
deriving DecidableEq

/-- `check_recovery_in_progress()` (api.py lines 270-336).  `probe` is
the outcome of the `DiviRPC.from_conf()` + `rpc.getinfo()` probe; the
persisted record is read from `s.persisted` (`_load_state`), and the
returned state reflects any `_clear_state()` call.  Python's falsy test
on `_recovery_start_time` is modelled by treating `some 0` like `None`;
`saved.get("start_time", time.time())` is modelled by `Option.getD now`. -/
def check_recovery_in_progress (s : ApiState) (probe : RpcOutcome) (now : Int) :
    CheckResult × ApiState :=
  if s.status.state = "running" then
    let elapsed :=
      match s.startTime with
      | some t => if t ≠ 0 then now - t else 0
      | none => 0
    (⟨true, s.status.phase, elapsed, s.status.message⟩, s)
  else
    match s.persisted with
    | none => (⟨false, "", 0, ""⟩, s)
    | some saved =>
      match probe with
      | .ok =>
        if saved.phase = "complete" ∨ saved.phase = "error" ∨ saved.phase = "" then
          (⟨false, "", 0, ""⟩, { s with persisted := none })
        else
          (⟨true, saved.phase, now - saved.start_time.getD now,
            "Recovery in progress (resumed)."⟩, s)
      | .rpcError _ message =>
        (⟨true, resumeClassifyPhase message saved.phase,
          now - saved.start_time.getD now, message⟩, s)
      | .connError =>
        (⟨false, "", 0, ""⟩, { s with persisted := none })

/-! ### `start_recovery` (api.py lines 400-485) -/

/-- The environment one `start_recovery` run interacts with.  Poll
sequences are total oracles (`Nat → _`); the source reads at most 15,
30, resp. 5 of their values. -/
structure StartEnv where
  /-- `get_daemon_path()`: the path, or the `FileNotFoundError` text. -/
  daemonPath : Except String String
  /-- step-1 `DiviRPC.from_conf()` succeeds (else `RPCConnectionError`). -/
  confReadable : Bool
  /-- step-1 `rpc.is_responsive()` result. -/
  initResponsive : Bool
  /-- `rpc.is_responsive()` results during the stop wait. -/
  stopResponsive : Nat → Bool
  /-- `subprocess.Popen`: ok, or the exception text. -/
  spawn : Except String Unit
  /-- outcomes of the availability polls during the RPC wait. -/
  rpcPoll : Nat → RpcOutcome
  /-- `os.path.exists(wallet_path)` results during the wallet wait. -/
  walletExists : Nat → Bool

structure StartResult where
  success : Bool
  message : String
  /-- whether the `_monitor_recovery` thread was started. -/
  monitorStarted : Bool
deriving DecidableEq

/-- The step-1 stop wait: `for i in range(15): sleep(2); if not
rpc.is_responsive(): break` — `true` iff the loop breaks (daemon gone). -/
def stopLoop (env : StartEnv) : Nat → Nat → Bool
  | _, 0 => false
  | i, fuel + 1 =>
    if env.stopResponsive i = false then true else stopLoop env (i + 1) fuel

/-- The step-3 RPC wait: 30 polls; a success or an `RPCError` makes the
daemon count as available, only `RPCConnectionError` keeps waiting. -/
def rpcWaitReady (env : StartEnv) : Nat → Nat → Bool
  | _, 0 => false
  | i, fuel + 1 =>
    match env.rpcPoll i with
    | .connError => rpcWaitReady env (i + 1) fuel
    | _ => true

/-- The step-4 wallet wait: 5 existence checks. -/
def walletWait (env : StartEnv) : Nat → Nat → Bool
  | _, 0 => false
  | i, fuel + 1 => if env.walletExists i then true else walletWait env (i + 1) fuel

/-- `start_recovery(mnemonic_str)` (api.py lines 400-485), modulo the
process side effects.  Note that `rpc_ready` and `wallet_found` are
computed but never influence the returned result — exactly as in the
source, where they only feed log lines. -/
def start_recovery (env : StartEnv) (s : ApiState) (now : Int) : StartResult × ApiState :=
  let s0 : ApiState := { s with autoLaunched := false }
  match env.daemonPath with
  | .error e => (⟨false, e, false⟩, s0)
  | .ok _ =>
    let afterStop : Option StartResult × ApiState :=
      if env.confReadable then
        if env.initResponsive then
          let s1 := setStatus s0 "running" "Stopping existing daemon..." "" "stopping" now
          if stopLoop env 0 15 then (none, s1)
          else (some ⟨false, "Could not stop existing daemon within 30 seconds.", false⟩, s1)
        else (none, s0)
      else (none, s0)
    match afterStop with
    | (some r, s1) => (r, s1)
    | (none, s1) =>
      match env.spawn with
      | .error e => (⟨false, "Failed to start daemon: " ++ e, false⟩, s1)
      | .ok _ =>
        let s2 : ApiState := { s1 with startTime := some now }
        let s3 := setStatus s2 "running"
          "Daemon started. Waiting for RPC to become available..." "" "starting" now
        let _rpcReady := rpcWaitReady env 0 30
        let _walletFound := walletWait env 0 5
        let s4 := setStatus s3 "running" "Daemon started. Monitoring recovery..." "" "starting" now
        (⟨true, "Recovery started. Daemon launched.", true⟩, s4)

/-- A module state as it is right after `start_recovery` has started the
monitor thread (used as a concrete initial state in counterexamples). -/
def postStartState : ApiState :=
  ⟨⟨"running", "starting", "Daemon started. Monitoring recovery...", ""⟩,
   some 0, some ⟨some 0, "starting", 0⟩, false, 0⟩

/-- A concrete environment for `start_recovery`: daemon binary found, no
readable conf (so no daemon to stop), spawn succeeds, and every
availability poll raises `RPCConnectionError`. -/
def sampleStartEnv : StartEnv :=
  ⟨.ok "divid", false, false, fun _ => true, .ok (), fun _ => .connError, fun _ => false⟩

/-- A stale module state: idle in memory, but a persisted record left on
disk by a previous process (used as a concrete resume scenario). -/
def staleState : ApiState :=
  ⟨⟨"idle", "", "", ""⟩, none, some ⟨some 100, "recovering_wallet", 200⟩, false, 0⟩

/-! ## Helper lemmas -/

theorem setStatus_status (s : ApiState) (st msg pr ph : String) (now : Int) :
    (setStatus s st msg pr ph now).status = ⟨st, ph, msg, pr⟩ := by
  unfold setStatus; split <;> rfl

theorem setStatus_autoLaunched (s : ApiState) (st msg pr ph : String) (now : Int) :
    (setStatus s st msg pr ph now).autoLaunched = s.autoLaunched := by
  unfold setStatus; split <;> rfl

theorem setStatus_attempts (s : ApiState) (st msg pr ph : String) (now : Int) :
    (setStatus s st msg pr ph now).desktopLaunchAttempts = s.desktopLaunchAttempts := by
  unfold setStatus; split <;> rfl

theorem autoLaunch_autoLaunched (l : Bool) (s : ApiState) (now : Int) :
    (autoLaunchDesktop l s now).autoLaunched = true := by
  unfold autoLaunchDesktop
  split
  · rw [setStatus_autoLaunched]
  · rfl

theorem autoLaunch_attempts (l : Bool) (s : ApiState) (now : Int) :
    (autoLaunchDesktop l s now).desktopLaunchAttempts = s.desktopLaunchAttempts + 1 := by
  unfold autoLaunchDesktop
  split
  · rw [setStatus_attempts]
  · rfl

theorem autoLaunch_state (l : Bool) (s : ApiState) (now : Int) :
    (autoLaunchDesktop l s now).status.state =
      (if l then "launched" else s.status.state) := by
  unfold autoLaunchDesktop
  split <;> simp_all [setStatus_status]

theorem monitorStep_appError (msg : String) (l : Bool) (now : Int) (s : ApiState) (f : Nat) :
    (monitorStep ⟨.appError msg, l⟩ now s f).failures = 0 ∧
    (monitorStep ⟨.appError msg, l⟩ now s f).stopped = false ∧
    ((monitorStep ⟨.appError msg, l⟩ now s f).api.status.state = "running" ∨
     (monitorStep ⟨.appError msg, l⟩ now s f).api.status.state = "launched") := by
  simp only [monitorStep, monitorStepCore]
  split
  · refine ⟨rfl, rfl, ?_⟩
    rw [autoLaunch_state]
    split
    · exact Or.inr rfl
    · rw [setStatus_status]; exact Or.inl rfl
  · refine ⟨rfl, rfl, ?_⟩
    rw [setStatus_status]; exact Or.inl rfl

theorem monitorStep_success_failures (b h : Int) (l : Bool) (now : Int) (s : ApiState) (f : Nat) :
    (monitorStep ⟨.success b h, l⟩ now s f).failures = 0 := by
  simp only [monitorStep, monitorStepCore]
  split
  · rfl
  · split <;> rfl

theorem monitorStep_success_state (b h : Int) (l : Bool) (now : Int) (s : ApiState) (f : Nat) :
    (monitorStep ⟨.success b h, l⟩ now s f).api.status.state =
      (if h > 0 ∧ b ≥ h then "complete" else "running") := by
  simp only [monitorStep, monitorStepCore]
  split <;> rename_i hc
  · simp [setStatus_status, hc]
  · split <;> simp [setStatus_status, hc]

theorem monitorStep_success_statusFull (b h : Int) (l : Bool) (now : Int) (s : ApiState)
    (f : Nat) :
    (monitorStep ⟨.success b h, l⟩ now s f).api.status =
      (if h > 0 ∧ b ≥ h then
        ⟨"complete", "complete", "Recovery complete. Ready to launch Divi Desktop.", "100%"⟩
       else if h > 0 then
        ⟨"running", "syncing", "Block " ++ toString b ++ "/" ++ toString h,
         toString (pyIntPct b h) ++ "%"⟩
       else ⟨"running", "syncing", "Waiting for block headers...", ""⟩) := by
  simp only [monitorStep, monitorStepCore]
  split <;> rename_i hc
  · simp [setStatus_status, hc]
  · split <;> rename_i hh <;> simp [setStatus_status, hc, hh]

theorem monitorStep_stopped_success (b h : Int) (l : Bool) (now : Int) (s : ApiState) (f : Nat) :
    (monitorStep ⟨.success b h, l⟩ now s f).stopped = decide (h > 0 ∧ b ≥ h) := by
  simp only [monitorStep, monitorStepCore]
  split <;> rename_i hc
  · simp [hc]
  · split <;> simp [hc]

theorem monitorStep_connError (now : Int) (l : Bool) (s : ApiState) (f : Nat) :
    (monitorStep ⟨.connError, l⟩ now s f).failures = f + 1 ∧
    ((monitorStep ⟨.connError, l⟩ now s f).stopped = decide (f + 1 ≥ 6)) ∧
    (monitorStep ⟨.connError, l⟩ now s f).api.status.state =
      (if f + 1 ≥ 6 then "error" else "running") := by
  simp only [monitorStep, monitorStepCore]
  split <;> rename_i hf <;> simp [setStatus_status, hf]

theorem monitorStep_state_error_iff (inp : PollInput) (now : Int) (s : ApiState) (f : Nat) :
    ((monitorStep inp now s f).api.status.state = "error" ↔
      (inp.poll = .connError ∧ f + 1 ≥ 6)) := by
  rcases inp with ⟨poll, l⟩
  cases poll with
  | success b h =>
    rw [monitorStep_success_state]
    split <;> simp
  | appError msg =>
    rcases (monitorStep_appError msg l now s f).2.2 with hr | hr <;> simp [hr]
  | connError =>
    rw [(monitorStep_connError now l s f).2.2]
    split <;> rename_i hf <;> simp [hf]

theorem runMonitor_frozen (now : Int) (polls : List PollInput) (ls : LoopState)
    (h : ls.stopped = true) : runMonitor now polls ls = ls := by
  cases polls with
  | nil => rfl
  | cons inp rest => unfold runMonitor; simp [h]

theorem runMonitor_cons (now : Int) (inp : PollInput) (rest : List PollInput) (ls : LoopState) :
    runMonitor now (inp :: rest) ls =
      if ls.stopped then ls
      else
        runMonitor now rest
          ⟨(monitorStep inp now ls.api ls.failures).api,
           (monitorStep inp now ls.api ls.failures).failures,
           (monitorStep inp now ls.api ls.failures).stopped⟩ := rfl

theorem runMonitor_append (now : Int) (l1 l2 : List PollInput) (ls : LoopState) :
    runMonitor now (l1 ++ l2) ls = runMonitor now l2 (runMonitor now l1 ls) := by
  induction l1 generalizing ls with
  | nil => rfl
  | cons inp rest ih =>
    by_cases h : ls.stopped = true
    · rw [runMonitor_frozen now _ ls h, runMonitor_frozen now _ ls h,
        runMonitor_frozen now _ ls h]
    · rw [List.cons_append, runMonitor_cons, runMonitor_cons]
      simp only [h, if_false]
      exact ih _

theorem autoLaunch_true_fields (s : ApiState) (now : Int) :
    (autoLaunchDesktop true s now).status =
      ⟨"launched", "launched",
       "Divi Desktop launched. It will finish syncing your wallet automatically.", ""⟩ ∧
    (autoLaunchDesktop true s now).persisted = none := by
  unfold autoLaunchDesktop
  simp [setStatus_status]

theorem monitorStep_preserves_flag (inp : PollInput) (now : Int) (s : ApiState) (f : Nat)
    (h : s.autoLaunched = true) :
    (monitorStep inp now s f).api.autoLaunched = true ∧
    (monitorStep inp now s f).api.desktopLaunchAttempts = s.desktopLaunchAttempts := by
  rcases inp with ⟨poll, l⟩
  cases poll with
  | success b h' =>
    simp only [monitorStep, monitorStepCore]
    split
    · exact ⟨by rw [setStatus_autoLaunched]; exact h, by rw [setStatus_attempts]⟩
    · split <;>
        exact ⟨by rw [setStatus_autoLaunched]; exact h, by rw [setStatus_attempts]⟩
  | appError msg =>
    simp only [monitorStep, monitorStepCore]
    split
    · rename_i hc
      rw [setStatus_autoLaunched, h] at hc
      exact absurd hc.2 (by simp)
    · exact ⟨by rw [setStatus_autoLaunched]; exact h, by rw [setStatus_attempts]⟩
  | connError =>
    simp only [monitorStep, monitorStepCore]
    split <;>
      exact ⟨by rw [setStatus_autoLaunched]; exact h, by rw [setStatus_attempts]⟩

theorem runMonitor_preserves_flag (now : Int) (polls : List PollInput) :
    ∀ ls : LoopState, ls.api.autoLaunched = true →
      (runMonitor now polls ls).api.autoLaunched = true ∧
      (runMonitor now polls ls).api.desktopLaunchAttempts = ls.api.desktopLaunchAttempts := by
  induction polls with
  | nil => exact fun ls h => ⟨h, rfl⟩
  | cons inp rest ih =>
    intro ls h
    rw [runMonitor_cons]
    by_cases hst : ls.stopped = true
    · simp [hst, h]
    · simp only [Bool.not_eq_true] at hst
      simp only [hst, Bool.false_eq_true, if_false]
      have hstep := monitorStep_preserves_flag inp now ls.api ls.failures h
      have := ih ⟨(monitorStep inp now ls.api ls.failures).api,
        (monitorStep inp now ls.api ls.failures).failures,
        (monitorStep inp now ls.api ls.failures).stopped⟩ hstep.1
      exact ⟨this.1, this.2.trans hstep.2⟩

theorem connError_run_under (now : Int) (l : Bool) :
    ∀ (n : Nat) (ls : LoopState), ls.stopped = false → ls.failures + n < 6 →
      ((runMonitor now (List.replicate n ⟨.connError, l⟩) ls).failures = ls.failures + n ∧
       (runMonitor now (List.replicate n ⟨.connError, l⟩) ls).stopped = false ∧
       (n ≠ 0 →
         (runMonitor now (List.replicate n ⟨.connError, l⟩) ls).api.status.state = "running")) := by
  intro n
  induction n with
  | zero =>
    intro ls h0 _
    exact ⟨rfl, h0, fun hn => absurd rfl hn⟩
  | succ m ih =>
    intro ls h0 hlt
    rw [List.replicate_succ, runMonitor_cons]
    simp only [h0, Bool.false_eq_true, if_false]
    have hstep := monitorStep_connError now l ls.api ls.failures
    have hf6 : ¬(ls.failures + 1 ≥ 6) := by omega
    have hfail : (monitorStep ⟨.connError, l⟩ now ls.api ls.failures).failures
        = ls.failures + 1 := hstep.1
    have hstop : (monitorStep ⟨.connError, l⟩ now ls.api ls.failures).stopped = false := by
      rw [hstep.2.1]; simpa using hf6
    have hstate : (monitorStep ⟨.connError, l⟩ now ls.api ls.failures).api.status.state
        = "running" := by rw [hstep.2.2, if_neg hf6]
    set ls' : LoopState :=
      ⟨(monitorStep ⟨.connError, l⟩ now ls.api ls.failures).api,
       (monitorStep ⟨.connError, l⟩ now ls.api ls.failures).failures,
       (monitorStep ⟨.connError, l⟩ now ls.api ls.failures).stopped⟩ with hls'
    have h0' : ls'.stopped = false := hstop
    have hlt' : ls'.failures + m < 6 := by
      rw [hls']; simp only [hfail]; omega
    have hm := ih ls' h0' hlt'
    refine ⟨?_, hm.2.1, fun _ => ?_⟩
    · rw [hm.1, hls']; simp only [hfail]; omega
    · cases m with
      | zero =>
        simpa [runMonitor] using hstate
      | succ k => exact hm.2.2 (by simp)

theorem errorBySix_correct (now : Int) :
    ∀ (polls : List PollInput) (ls : LoopState),
      ls.stopped = false → ls.api.status.state ≠ "error" →
      ((runMonitor now polls ls).api.status.state = "error" ↔
        errorBySix ls.failures polls = true) := by
  intro polls
  induction polls with
  | nil =>
    intro ls _ hne
    simpa [runMonitor, errorBySix] using hne
  | cons inp rest ih =>
    intro ls h0 hne
    rw [runMonitor_cons]
    simp only [h0, Bool.false_eq_true, if_false]
    rcases inp with ⟨poll, l⟩
    cases poll with
    | success b h =>
      by_cases hc : h > 0 ∧ b ≥ h
      · have hstop : (monitorStep ⟨.success b h, l⟩ now ls.api ls.failures).stopped = true := by
          rw [monitorStep_stopped_success]; simpa using hc
        rw [runMonitor_frozen _ _ _ hstop]
        have hst : (monitorStep ⟨.success b h, l⟩ now ls.api ls.failures).api.status.state
            = "complete" := by rw [monitorStep_success_state, if_pos hc]
        rw [hst]
        simp [errorBySix, hc]
      · have hstop : (monitorStep ⟨.success b h, l⟩ now ls.api ls.failures).stopped = false := by
          rw [monitorStep_stopped_success]; simpa using hc
        have hst : (monitorStep ⟨.success b h, l⟩ now ls.api ls.failures).api.status.state
            = "running" := by rw [monitorStep_success_state, if_neg hc]
        have := ih ⟨(monitorStep ⟨.success b h, l⟩ now ls.api ls.failures).api,
          (monitorStep ⟨.success b h, l⟩ now ls.api ls.failures).failures,
          (monitorStep ⟨.success b h, l⟩ now ls.api ls.failures).stopped⟩
          hstop (by rw [hst]; decide)
        rw [this]
        simp [errorBySix, monitorStep_success_failures, hc]
    | appError msg =>
      have hs := monitorStep_appError msg l now ls.api ls.failures
      have hne' : (monitorStep ⟨.appError msg, l⟩ now ls.api ls.failures).api.status.state
          ≠ "error" := by
        rcases hs.2.2 with hr | hr <;> rw [hr] <;> decide
      have := ih ⟨(monitorStep ⟨.appError msg, l⟩ now ls.api ls.failures).api,
        (monitorStep ⟨.appError msg, l⟩ now ls.api ls.failures).failures,
        (monitorStep ⟨.appError msg, l⟩ now ls.api ls.failures).stopped⟩ hs.2.1 hne'
      rw [this]
      simp [errorBySix, hs.1]
    | connError =>
      have hstep := monitorStep_connError now l ls.api ls.failures
      by_cases h6 : ls.failures + 1 ≥ 6
      · have hstop : (monitorStep ⟨.connError, l⟩ now ls.api ls.failures).stopped = true := by
          rw [hstep.2.1]; simpa using h6
        rw [runMonitor_frozen _ _ _ hstop]
        rw [hstep.2.2, if_pos h6]
        simp [errorBySix, h6]
      · have hstop : (monitorStep ⟨.connError, l⟩ now ls.api ls.failures).stopped = false := by
          rw [hstep.2.1]; simpa using h6
        have hst : (monitorStep ⟨.connError, l⟩ now ls.api ls.failures).api.status.state
            = "running" := by rw [hstep.2.2, if_neg h6]
        have := ih ⟨(monitorStep ⟨.connError, l⟩ now ls.api ls.failures).api,
          (monitorStep ⟨.connError, l⟩ now ls.api ls.failures).failures,
          (monitorStep ⟨.connError, l⟩ now ls.api ls.failures).stopped⟩
          hstop (by rw [hst]; decide)
        rw [this]
        simp [errorBySix, hstep.1, h6]

theorem splitChar_eq_of_not_mem (sep : Char) :
    ∀ l : List Char, sep ∉ l → splitChar sep l = [l] := by
  intro l
  induction l with
  | nil => intro _; rfl
  | cons c rest ih =>
    intro h
    unfold splitChar
    have hc : ¬(c = sep) := fun e => h (by rw [← e]; exact List.mem_cons_self c rest)
    rw [if_neg hc, ih fun m => h (List.mem_cons_of_mem c m)]

theorem extractWalletPercent_no_paren (msg : String) (h : '(' ∉ msg.data) :
    extractWalletPercent msg = "" := by
  unfold extractWalletPercent
  rw [splitChar_eq_of_not_mem '(' msg.data h]

/-! ## Claim theorems -/

/-- **C1, counterexample.**  The claim says no monitor step changes the
status once `state = "launched"`.  But the scanning branch of
`_monitor_recovery` does not return: starting from the post-start state,
one `"Scanning..."` poll leaves the status `launched`, and a second
monitor-loop poll moves it back to `running`. -/
theorem claim1_counterexample :
    (runMonitor 0 [⟨.appError "Scanning...", true⟩]
        ⟨postStartState, 0, false⟩).api.status.state = "launched" ∧
    (runMonitor 0 [⟨.appError "Scanning...", true⟩, ⟨.appError "Scanning...", true⟩]
        ⟨postStartState, 0, false⟩).api.status.state = "running" ∧
    ("running" : String) ≠ "launched" := by decide

/-- **C1, amended.**  Within one monitor loop: every step leaves `state`
in {running, complete, error, launched} (never idle); any step that
produces `complete` or `error` returns from the loop, and a returned
loop performs no further polls — so `complete` and `error` are terminal;
`clear_recovery` is what resets the status to idle and deletes the
persisted record.  (`launched` is *not* terminal: the loop keeps
polling, as the counterexample shows.) -/
theorem claim1_amended :
    (∀ (inp : PollInput) (now : Int) (s : ApiState) (f : Nat),
      (((monitorStep inp now s f).api.status.state = "running" ∨
        (monitorStep inp now s f).api.status.state = "complete" ∨
        (monitorStep inp now s f).api.status.state = "error" ∨
        (monitorStep inp now s f).api.status.state = "launched") ∧
       (((monitorStep inp now s f).api.status.state = "complete" ∨
         (monitorStep inp now s f).api.status.state = "error") →
         (monitorStep inp now s f).stopped = true)))
    ∧ (∀ (now : Int) (polls : List PollInput) (ls : LoopState),
        ls.stopped = true → runMonitor now polls ls = ls)
    ∧ (∀ s : ApiState,
        (clear_recovery s).1.status = ⟨"idle", "", "", ""⟩ ∧
        (clear_recovery s).1.persisted = none) := by
  refine ⟨?_, runMonitor_frozen, fun s => ⟨rfl, rfl⟩⟩
  intro inp now s f
  rcases inp with ⟨poll, l⟩
  cases poll with
  | success b h =>
    rw [monitorStep_success_state, monitorStep_stopped_success] at *
    constructor
    · split <;> simp
    · split <;> simp_all
  | appError msg =>
    have hs := monitorStep_appError msg l now s f
    rcases hs.2.2 with hr | hr <;> rw [hr] <;> exact ⟨by simp, by simp⟩
  | connError =>
    have hc := monitorStep_connError now l s f
    rw [hc.2.2, (monitorStep_connError now l s f).2.1]
    constructor
    · split <;> simp
    · split <;> simp_all

/-- **C1, witness.** -/
theorem claim1_witness :
    (monitorStep ⟨.success 50 50, true⟩ 0 postStartState 0).stopped = true ∧
    runMonitor 0 [⟨.connError, true⟩] ⟨postStartState, 0, true⟩ = ⟨postStartState, 0, true⟩ ∧
    (clear_recovery postStartState).1.status = ⟨"idle", "", "", ""⟩ :=
  ⟨(claim1_amended.1 ⟨.success 50 50, true⟩ 0 postStartState 0).2 (Or.inl (by decide)),
   claim1_amended.2.1 0 [⟨.connError, true⟩] ⟨postStartState, 0, true⟩ rfl,
   (claim1_amended.2.2 postStartState).1⟩

/-- **C2, counterexample.**  After the scanning poll fires the
auto-launch (status `launched`, record deleted), the loop has *not*
returned: the loop state is unstopped, and a further poll is performed
and overwrites the status (here with `running`/`syncing`). -/
theorem claim2_counterexample :
    (runMonitor 0 [⟨.appError "Rescanning...", true⟩]
        ⟨postStartState, 0, false⟩).stopped = false ∧
    (runMonitor 0 [⟨.appError "Rescanning...", true⟩]
        ⟨postStartState, 0, false⟩).api.status.state = "launched" ∧
    (runMonitor 0 [⟨.appError "Rescanning...", true⟩, ⟨.success 10 100, true⟩]
        ⟨postStartState, 0, false⟩).api.status.state = "running" := by decide

/-- **C2, amended.**  When a poll classifies as `scanning` and the flag
is unset, the monitor fires the launch (exactly one new attempt), sets
status to `launched`/`launched`, and deletes the persisted record — but
the iteration does **not** return, so the loop keeps polling; with the
flag now set, a later scanning poll performs no further launch attempt. -/
theorem claim2_amended :
    (∀ (msg : String) (now : Int) (s : ApiState) (f : Nat),
      (classifyAppError msg).phase = "scanning" → s.autoLaunched = false →
      ((monitorStep ⟨.appError msg, true⟩ now s f).api.status.state = "launched" ∧
       (monitorStep ⟨.appError msg, true⟩ now s f).api.status.phase = "launched" ∧
       (monitorStep ⟨.appError msg, true⟩ now s f).api.persisted = none ∧
       (monitorStep ⟨.appError msg, true⟩ now s f).api.autoLaunched = true ∧
       (monitorStep ⟨.appError msg, true⟩ now s f).api.desktopLaunchAttempts
         = s.desktopLaunchAttempts + 1 ∧
       (monitorStep ⟨.appError msg, true⟩ now s f).stopped = false))
    ∧ (∀ (msg : String) (l : Bool) (now : Int) (s : ApiState) (f : Nat),
        s.autoLaunched = true →
        (monitorStep ⟨.appError msg, l⟩ now s f).api.desktopLaunchAttempts
          = s.desktopLaunchAttempts) := by
  constructor
  · intro msg now s f hphase hflag
    simp only [monitorStep, monitorStepCore]
    split
    · have hfields := autoLaunch_true_fields
        (setStatus s "running" (classifyAppError msg).message (classifyAppError msg).progress
          (classifyAppError msg).phase now) now
      refine ⟨?_, ?_, hfields.2, autoLaunch_autoLaunched _ _ _, ?_, rfl⟩
      · rw [hfields.1]
      · rw [hfields.1]
      · rw [autoLaunch_attempts, setStatus_attempts]
    · rename_i hc
      exact absurd ⟨hphase, by rw [setStatus_autoLaunched]; exact hflag⟩ hc
  · intro msg l now s f h
    exact (monitorStep_preserves_flag ⟨.appError msg, l⟩ now s f h).2

/-- **C2, witness.** -/
theorem claim2_witness :
    (monitorStep ⟨.appError "Rescanning...", true⟩ 0 postStartState 0).api.status.state
      = "launched" ∧
    (monitorStep ⟨.appError "Verifying...", true⟩ 0
        { postStartState with autoLaunched := true } 0).api.desktopLaunchAttempts = 0 :=
  ⟨((claim2_amended.1 "Rescanning..." 0 postStartState 0 (by decide) rfl)).1,
   claim2_amended.2 "Verifying..." true 0 { postStartState with autoLaunched := true } 0 rfl⟩

/-- **C3, counterexample.**  The claim says an `RPCError`
(ApplicationFailure) from a live daemon makes `is_responsive` return
`True`; but `is_responsive` catches `RPCError` together with
`RPCConnectionError` (rpc.py line 126) and returns `False`. -/
theorem claim3_counterexample :
    is_responsive (.rpcError (-28) "Loading block index...") = false ∧
    (false : Bool) ≠ true := by decide

/-- **C3, amended.**  `is_responsive` returns `True` iff `getinfo()`
raises neither exception: an `ApplicationFailure` (RPC error) also
yields `False`, exactly like a `ConnectionFailure`. -/
theorem claim3_amended :
    ∀ o : RpcOutcome, is_responsive o = true ↔ o = .ok := by
  intro o
  cases o <;> simp [is_responsive]

/-- **C8.**  With a persisted record present, the in-memory state not
`running`, and the probe raising `RPCConnectionError`,
`check_recovery_in_progress` reports not-in-progress (empty phase, zero
elapsed, empty message) and deletes the persisted record. -/
theorem claim8_crash_detection (s : ApiState) (saved : PersistedState) (now : Int)
    (hrun : s.status.state ≠ "running") (hsaved : s.persisted = some saved) :
    check_recovery_in_progress s .connError now =
      (⟨false, "", 0, ""⟩, { s with persisted := none }) := by
  unfold check_recovery_in_progress
  rw [if_neg hrun, hsaved]

/-- **C8, witness.** -/
theorem claim8_witness :
    check_recovery_in_progress staleState .connError 500 =
      (⟨false, "", 0, ""⟩, { staleState with persisted := none }) :=
  claim8_crash_detection staleState ⟨some 100, "recovering_wallet", 200⟩ 500
    (by decide) rfl

/-- **C4, counterexample.**  The claim says the syncing progress is
*exactly* `floor(blocks/headers*100)` followed by `"%"`.  At
`blocks = 29, headers = 100` the exact floor is `29`, but the code's
binary64 evaluation of `int(29 / 100 * 100)` truncates
`28.999999999999996` to `28`, so the status carries `"28%"`. -/
theorem claim4_counterexample :
    (monitorStep ⟨.success 29 100, true⟩ 0 postStartState 0).api.status.phase = "syncing" ∧
    (monitorStep ⟨.success 29 100, true⟩ 0 postStartState 0).api.status.progress = "28%" ∧
    ((29 : Int) * 100 / 100 = 29) ∧ ("28%" : String) ≠ "29%" := by decide

/-- **C4, amended.**  The `complete` and unknown-headers branches are as
claimed; in the syncing branch the progress numeral is the truncation of
the binary64 evaluation of `blocks / headers * 100`, which coincides
with the exact floor on the spec's example (`40/160 → "25%"`) but not
universally (`29/100 → "28%"` while the floor is `29`). -/
theorem claim4_amended :
    (∀ (b h : Int) (l : Bool) (now : Int) (s : ApiState) (f : Nat), h > 0 → b ≥ h →
      ((monitorStep ⟨.success b h, l⟩ now s f).api.status.state = "complete" ∧
       (monitorStep ⟨.success b h, l⟩ now s f).api.status.phase = "complete" ∧
       (monitorStep ⟨.success b h, l⟩ now s f).api.status.progress = "100%"))
    ∧ (∀ (b h : Int) (l : Bool) (now : Int) (s : ApiState) (f : Nat), h ≤ 0 →
        ((monitorStep ⟨.success b h, l⟩ now s f).api.status.phase = "syncing" ∧
         (monitorStep ⟨.success b h, l⟩ now s f).api.status.state = "running" ∧
         (monitorStep ⟨.success b h, l⟩ now s f).api.status.progress = ""))
    ∧ (∀ (b h : Int) (l : Bool) (now : Int) (s : ApiState) (f : Nat),
        h > 0 → 0 ≤ b → b < h →
        ((monitorStep ⟨.success b h, l⟩ now s f).api.status.phase = "syncing" ∧
         (monitorStep ⟨.success b h, l⟩ now s f).api.status.state = "running" ∧
         (monitorStep ⟨.success b h, l⟩ now s f).api.status.progress
           = toString (pyIntPct b h) ++ "%"))
    ∧ ((29 : Int) * 100 / 100 = 29 ∧ pyIntPct 29 100 = 28)
    ∧ ((40 : Int) * 100 / 160 = 25 ∧ pyIntPct 40 160 = 25) := by
  refine ⟨?_, ?_, ?_, by decide, by decide⟩
  · intro b h l now s f hh hb
    have hc : h > 0 ∧ b ≥ h := ⟨hh, hb⟩
    rw [monitorStep_success_statusFull, if_pos hc]
    exact ⟨rfl, rfl, rfl⟩
  · intro b h l now s f hle
    have hh : ¬(h > 0) := by omega
    have hc : ¬(h > 0 ∧ b ≥ h) := fun c => hh c.1
    rw [monitorStep_success_statusFull, if_neg hc, if_neg hh]
    exact ⟨rfl, rfl, rfl⟩
  · intro b h l now s f hh _ hbh
    have hc : ¬(h > 0 ∧ b ≥ h) := by omega
    rw [monitorStep_success_statusFull, if_neg hc, if_pos hh]
    exact ⟨rfl, rfl, rfl⟩

/-- **C4, witness.** -/
theorem claim4_witness :
    (monitorStep ⟨.success 5 5, true⟩ 0 postStartState 0).api.status.progress = "100%" ∧
    (monitorStep ⟨.success 3 0, true⟩ 0 postStartState 0).api.status.progress = "" ∧
    (monitorStep ⟨.success 40 160, true⟩ 0 postStartState 0).api.status.progress = "25%" := by
  refine ⟨(claim4_amended.1 5 5 true 0 postStartState 0 (by decide) (by decide)).2.2,
          (claim4_amended.2.1 3 0 true 0 postStartState 0 (by decide)).2.2, ?_⟩
  have := (claim4_amended.2.2.1 40 160 true 0 postStartState 0
    (by decide) (by decide) (by decide)).2.2
  rw [this]
  decide

/-- **C5.**  In the monitor loop, `error` is reached exactly by runs of
6 consecutive `ConnectionFailure` polls: (1) six consecutive connection
failures from a fresh counter produce `error` and stop the loop; (2)
every successful poll and every `ApplicationFailure` poll resets the
counter to zero; (3) five connection failures followed by one
(non-completing) success leave the status `running` with the counter
reset; (4) in general, a run that starts unstopped with counter `k` in a
non-`error` status ends in `error` iff the poll sequence drives the
counter to 6 (`errorBySix`), i.e. contains 6 consecutive connection
failures (counted from `k`) before any loop-ending success. -/
theorem claim5_threshold :
    (∀ (now : Int) (l : Bool) (ls : LoopState), ls.stopped = false → ls.failures = 0 →
      ((runMonitor now (List.replicate 6 ⟨.connError, l⟩) ls).api.status.state = "error" ∧
       (runMonitor now (List.replicate 6 ⟨.connError, l⟩) ls).stopped = true))
    ∧ (∀ (b h : Int) (l : Bool) (now : Int) (s : ApiState) (f : Nat),
        (monitorStep ⟨.success b h, l⟩ now s f).failures = 0)
    ∧ (∀ (msg : String) (l : Bool) (now : Int) (s : ApiState) (f : Nat),
        (monitorStep ⟨.appError msg, l⟩ now s f).failures = 0)
    ∧ (∀ (b h : Int) (l l' : Bool) (now : Int) (ls : LoopState),
        ls.stopped = false → ls.failures = 0 → ¬(h > 0 ∧ b ≥ h) →
        ((runMonitor now (List.replicate 5 ⟨.connError, l⟩ ++ [⟨.success b h, l'⟩])
            ls).api.status.state = "running" ∧
         (runMonitor now (List.replicate 5 ⟨.connError, l⟩ ++ [⟨.success b h, l'⟩])
            ls).stopped = false ∧
         (runMonitor now (List.replicate 5 ⟨.connError, l⟩ ++ [⟨.success b h, l'⟩])
            ls).failures = 0))
    ∧ (∀ (now : Int) (polls : List PollInput) (ls : LoopState),
        ls.stopped = false → ls.api.status.state ≠ "error" →
        ((runMonitor now polls ls).api.status.state = "error" ↔
          errorBySix ls.failures polls = true)) := by
  refine ⟨?_, fun b h l now s f => monitorStep_success_failures b h l now s f,
          fun msg l now s f => (monitorStep_appError msg l now s f).1, ?_,
          errorBySix_correct⟩
  · intro now l ls h0 hf
    have h56 : (6 : Nat) = 5 + 1 := rfl
    rw [h56, List.replicate_add, runMonitor_append]
    have h5 := connError_run_under now l 5 ls h0 (by omega)
    set ls5 := runMonitor now (List.replicate 5 ⟨.connError, l⟩) ls with hls5
    have hstep := monitorStep_connError now l ls5.api ls5.failures
    have h6 : ls5.failures + 1 ≥ 6 := by rw [h5.1, hf]
    rw [List.replicate_one, runMonitor_cons]
    simp only [h5.2.1, Bool.false_eq_true, if_false]
    rw [runMonitor_frozen]
    · constructor
      · rw [hstep.2.2, if_pos h6]
      · rw [hstep.2.1]; simpa using h6
    · rw [hstep.2.1]; simpa using h6
  · intro b h l l' now ls h0 hf hc
    rw [runMonitor_append]
    have h5 := connError_run_under now l 5 ls h0 (by omega)
    set ls5 := runMonitor now (List.replicate 5 ⟨.connError, l⟩) ls with hls5
    rw [runMonitor_cons]
    simp only [h5.2.1, Bool.false_eq_true, if_false]
    have hstop : (monitorStep ⟨.success b h, l'⟩ now ls5.api ls5.failures).stopped = false := by
      rw [monitorStep_stopped_success]; simpa using hc
    have hst : (monitorStep ⟨.success b h, l'⟩ now ls5.api ls5.failures).api.status.state
        = "running" := by rw [monitorStep_success_state, if_neg hc]
    simp only [runMonitor]
    exact ⟨hst, hstop, monitorStep_success_failures b h l' now ls5.api ls5.failures⟩

/-- **C5, witness.** -/
theorem claim5_witness :
    (runMonitor 0 (List.replicate 6 ⟨.connError, true⟩)
        ⟨postStartState, 0, false⟩).api.status.state = "error" ∧
    (runMonitor 0 (List.replicate 5 ⟨.connError, true⟩ ++ [⟨.success 10 100, true⟩])
        ⟨postStartState, 0, false⟩).api.status.state = "running" ∧
    (runMonitor 0 [⟨.connError, true⟩]
        ⟨postStartState, 0, false⟩).api.status.state ≠ "error" := by
  refine ⟨(claim5_threshold.1 0 true ⟨postStartState, 0, false⟩ rfl rfl).1,
          (claim5_threshold.2.2.2.1 10 100 true true 0 ⟨postStartState, 0, false⟩
            rfl rfl (by decide)).1, ?_⟩
  intro hh
  have hiff := claim5_threshold.2.2.2.2 0 [⟨.connError, true⟩]
    ⟨postStartState, 0, false⟩ rfl (by decide)
  exact absurd (hiff.mp hh) (by decide)

/-- **C6, counterexample.**  The claim fails twice: a message containing
both `"Loading block index"` and `"Loading wallet"` is classified
`loading_blocks` (the block-index branch is checked first), and a
malformed percent fragment does not fall back to the empty string — the
extraction keeps whatever text sits between `"("` and the next `"%"`. -/
theorem claim6_counterexample :
    (classifyAppError "Loading block index after Loading wallet").phase = "loading_blocks" ∧
    ("loading_blocks" : String) ≠ "recovering_wallet" ∧
    (classifyAppError "Loading wallet (oops)").phase = "recovering_wallet" ∧
    (classifyAppError "Loading wallet (oops)").progress = "oops)%" ∧
    ("oops)%" : String) ≠ "" := by decide

/-- **C6, amended.**  For every message containing `"Loading wallet"`
and not containing `"Loading block index"`, the phase is
`recovering_wallet` and the progress is the (total, never-throwing)
extraction `extractWalletPercent`: empty when the message has no `"("`
(the `IndexError` path), the spec's `"37%"` on the well-formed example,
and otherwise the stripped text between the first `"("` and the next
`"%"` suffixed with `"%"` — possibly garbage, not `""`. -/
theorem claim6_amended :
    (∀ msg : String, strContains msg "Loading block index" = false →
      strContains msg "Loading wallet" = true →
      ((classifyAppError msg).phase = "recovering_wallet" ∧
       (classifyAppError msg).progress = extractWalletPercent msg ∧
       ('(' ∉ msg.data → (classifyAppError msg).progress = "")))
    ∧ (classifyAppError "Loading wallet... (37%)").progress = "37%"
    ∧ (classifyAppError "Loading wallet... (37%)").phase = "recovering_wallet" := by
  refine ⟨?_, by decide, by decide⟩
  intro msg h1 h2
  have hcl : classifyAppError msg =
      ⟨"Recreating wallet from seed phrase... " ++ extractWalletPercent msg,
       extractWalletPercent msg, "recovering_wallet"⟩ := by
    unfold classifyAppError
    rw [h1, h2]
    simp
  rw [hcl]
  exact ⟨rfl, rfl, fun hp => by
    show extractWalletPercent msg = ""
    rw [extractWalletPercent_no_paren msg hp]⟩

/-- **C6, witness.** -/
theorem claim6_witness :
    (classifyAppError "Loading wallet...").phase = "recovering_wallet" ∧
    (classifyAppError "Loading wallet...").progress = "" :=
  ⟨(claim6_amended.1 "Loading wallet..." (by decide) (by decide)).1,
   (claim6_amended.1 "Loading wallet..." (by decide) (by decide)).2.2 (by decide)⟩

/-- **C7, counterexample.**  The two classifiers are *not* the same
function: on `"Activating best chain..."` the monitor loop classifies
`loading_blocks`, while the resume check has no such branch and falls
back to the persisted phase (here `""`). -/
theorem claim7_counterexample :
    (classifyAppError "Activating best chain...").phase = "loading_blocks" ∧
    resumeClassifyPhase "Activating best chain..." "" = "" ∧
    ("loading_blocks" : String) ≠ "" := by decide

/-- **C7, amended.**  The two classifications agree on every message
containing at least one of the four shared patterns (`"Loading block
index"`, `"Loading wallet"`, `"Rescanning"`/`"Scanning"`,
`"Verifying"`); they differ only in the fallback: the monitor maps
`"Activating best chain"` to `loading_blocks` and anything else to an
empty phase, whereas the resume check returns the persisted phase. -/
theorem claim7_amended (msg savedPhase : String)
    (h : strContains msg "Loading block index" = true ∨
         strContains msg "Loading wallet" = true ∨
         strContains msg "Rescanning" = true ∨
         strContains msg "Scanning" = true ∨
         strContains msg "Verifying" = true) :
    resumeClassifyPhase msg savedPhase = (classifyAppError msg).phase := by
  unfold resumeClassifyPhase classifyAppError
  cases h1 : strContains msg "Loading block index" <;>
    cases h2 : strContains msg "Loading wallet" <;>
      cases h3 : strContains msg "Rescanning" <;>
        cases h4 : strContains msg "Scanning" <;>
          cases h5 : strContains msg "Verifying" <;>
            simp_all

/-- **C7, witness.** -/
theorem claim7_witness :
    resumeClassifyPhase "Verifying blocks..." "stale_phase"
      = (classifyAppError "Verifying blocks...").phase :=
  claim7_amended "Verifying blocks..." "stale_phase" (by decide)

/-- **C9.**  If the daemon binary is found, step 1 does not fail (there
is no responsive daemon that refuses to stop) and the spawn succeeds,
then `start_recovery` returns success and starts the monitor thread —
even when every availability poll raises `RPCConnectionError`.  The
availability polls cannot influence the result: `rpc_ready` only feeds a
log line. -/
theorem claim9_wait_window (env : StartEnv) (s : ApiState) (now : Int) (p : String)
    (hpath : env.daemonPath = .ok p) (hspawn : env.spawn = .ok ())
    (hstop : (env.confReadable && env.initResponsive && !(stopLoop env 0 15)) = false)
    (_hpolls : ∀ i, i < 30 → env.rpcPoll i = .connError) :
    (start_recovery env s now).1.success = true ∧
    (start_recovery env s now).1.monitorStarted = true ∧
    (start_recovery env s now).2.status.state = "running" := by
  unfold start_recovery
  rw [hpath]
  by_cases hcr : env.confReadable = true
  · by_cases hir : env.initResponsive = true
    · have hsl : stopLoop env 0 15 = true := by
        cases hb : stopLoop env 0 15
        · rw [hcr, hir, hb] at hstop
          simp at hstop
        · rfl
      simp [hcr, hir, hsl, hspawn, setStatus_status]
    · have hir' : env.initResponsive = false := by simpa using hir
      simp [hcr, hir', hspawn, setStatus_status]
  · have hcr' : env.confReadable = false := by simpa using hcr
    simp [hcr', hspawn, setStatus_status]

/-- **C9, witness.** -/
theorem claim9_witness :
    (start_recovery sampleStartEnv staleState 1000).1.success = true ∧
    (start_recovery sampleStartEnv staleState 1000).1.monitorStarted = true :=
  have hmain := claim9_wait_window sampleStartEnv staleState 1000 "divid"
    rfl rfl rfl (fun _ _ => rfl)
  ⟨hmain.1, hmain.2.1⟩

/-- **C10.**  When the desktop launch raises, `_auto_launch_desktop`
leaves the status record, the start time and the persisted state exactly
as they were, while the `_auto_launched` flag is set; and once the flag
is set, no run of the monitor loop ever makes another launch attempt. -/
theorem claim10_launch_failure_frame :
    (∀ (s : ApiState) (now : Int),
      (autoLaunchDesktop false s now).status = s.status ∧
      (autoLaunchDesktop false s now).persisted = s.persisted ∧
      (autoLaunchDesktop false s now).startTime = s.startTime ∧
      (autoLaunchDesktop false s now).autoLaunched = true ∧
      (autoLaunchDesktop false s now).desktopLaunchAttempts
        = s.desktopLaunchAttempts + 1)
    ∧ (∀ (now : Int) (polls : List PollInput) (ls : LoopState),
        ls.api.autoLaunched = true →
        (runMonitor now polls ls).api.desktopLaunchAttempts
          = ls.api.desktopLaunchAttempts) := by
  constructor
  · intro s now
    exact ⟨rfl, rfl, rfl, rfl, rfl⟩
  · intro now polls ls h
    exact (runMonitor_preserves_flag now polls ls h).2

/-- **C10, witness.** -/
theorem claim10_witness :
    (autoLaunchDesktop false postStartState 0).status = postStartState.status ∧
    (runMonitor 0 [⟨.appError "Scanning block 7", true⟩]
        ⟨{ postStartState with autoLaunched := true }, 0, false⟩).api.desktopLaunchAttempts
      = 0 :=
  ⟨(claim10_launch_failure_frame.1 postStartState 0).1,
   (claim10_launch_failure_frame.2 0 [⟨.appError "Scanning block 7", true⟩]
      ⟨{ postStartState with autoLaunched := true }, 0, false⟩ rfl).trans rfl⟩

end DiviImporter
